import Mathlib

/-!
Verification of the Sanbot MCU bridge: frame assembler, command catalogue
and USB transport manager, shallowly embedded from the C++ sources
(packet-assembler.cpp, control-catalogue.cpp, usb-send.cpp).

Machine integers are modelled as Nat (unsigned) and Int (signed), with
explicit `% 2 ^ w` at the points where the C++ code truncates.
-/

namespace Sanbot

/-- C++ static_cast to int8_t of a byte-valued integer: twos-complement
reinterpretation of the low 8 bits. -/
def toInt8 (n : Nat) : Int :=
  let m := n % 256
  if m < 128 then (m : Int) else (m : Int) - 256

/-- C++ static_cast to uint8_t of a signed byte: value modulo 256. -/
def toUInt8 (i : Int) : Nat := (i % 256).toNat

/-- packet-assembler: struct CommandPayload. orderedBytes holds int8_t. -/
structure CommandPayload where
  commandMode : Nat
  orderedBytes : List Int
deriving DecidableEq

/-- UsbFrameParams.type constant. -/
def FRAME_TYPE : Nat := 0xA403

/-- UsbFrameParams.subtype constant. -/
def FRAME_SUBTYPE : Nat := 0x0000

/-- UsbFrameParams.frame_head constant. -/
def FRAME_HEAD : Nat := 0xFFA5

/-- UsbFrameParams.unuse: seven reserved zero bytes. -/
def UNUSE : List Nat := [0, 0, 0, 0, 0, 0, 0]

/-- packet-assembler: struct UsbFrameParams (the constant fields are the
process-wide constants above; only ack_flg varies per call). -/
structure UsbFrameParams where
  ack_flg : Nat
deriving DecidableEq

/-- High byte of a 16-bit value: (value >> 8) & 0xFF. -/
def byteHigh (v : Nat) : Nat := (v / 2 ^ 8) % 256

/-- Low byte of a 16-bit value: value & 0xFF. -/
def byteLow (v : Nat) : Nat := v % 256

/-- packet-assembler: toBytes16BE. -/
def toBytes16BE (value : Nat) : List Nat := [byteHigh value, byteLow value]

/-- packet-assembler: toBytes32BE. -/
def toBytes32BE (value : Nat) : List Nat :=
  [(value / 2 ^ 24) % 256, (value / 2 ^ 16) % 256, (value / 2 ^ 8) % 256,
   value % 256]

/-- The erase/remove step of buildDatas: drop every int8 element equal to
the sentinel -1. -/
def removeSentinels (l : List Int) : List Int :=
  l.filter (fun sb => decide (sb ≠ -1))

/-- packet-assembler: buildDatas. Prepend commandMode (cast to int8),
drop -1 sentinels, reinterpret the rest as unsigned bytes. -/
def buildDatas (cmd : CommandPayload) : List Nat :=
  (removeSentinels (toInt8 cmd.commandMode :: cmd.orderedBytes)).map toUInt8

/-- packet-assembler: struct UsbComputed. -/
structure UsbComputed where
  content_len : Nat
  mmnn : Nat
  msg_size : List Nat
  checkSum : Nat
deriving DecidableEq

/-- packet-assembler: computeUsbFieldsAndChecksum. content_len is a
uint32_t, mmnn a uint16_t, the checksum accumulator a uint32_t. -/
def computeUsbFieldsAndChecksum (params : UsbFrameParams)
    (datas : List Nat) : UsbComputed :=
  let content_len : Nat := (datas.length + 5 + 1) % 2 ^ 32
  let mmnn : Nat := (datas.length + 1) % 2 ^ 16
  let msg_size := toBytes32BE content_len
  let data_sum : Nat :=
    (byteHigh FRAME_HEAD + byteLow FRAME_HEAD + params.ack_flg + mmnn
      + datas.sum) % 2 ^ 32
  ⟨content_len, mmnn, msg_size, data_sum % 256⟩

/-- packet-assembler: buildUsbFrame. -/
def buildUsbFrame (params : UsbFrameParams) (datas : List Nat) : List Nat :=
  let computed := computeUsbFieldsAndChecksum params datas
  toBytes16BE FRAME_TYPE ++ toBytes16BE FRAME_SUBTYPE ++ computed.msg_size
    ++ [params.ack_flg] ++ UNUSE ++ toBytes16BE FRAME_HEAD
    ++ [params.ack_flg] ++ toBytes16BE computed.mmnn
    ++ datas ++ [computed.checkSum]

/-- packet-assembler: appendPointTagForRouting. -/
def appendPointTagForRouting (usbFrame : List Nat) (point_tag : Nat) :
    List Nat :=
  usbFrame ++ [point_tag]

/-- packet-assembler: assembleUsbFrameFromCommand. -/
def assembleUsbFrameFromCommand (cmd : CommandPayload) (ack_flg : Nat) :
    List Nat :=
  buildUsbFrame ⟨ack_flg⟩ (buildDatas cmd)

/-- packet-assembler: assembleRoutedBuffer. -/
def assembleRoutedBuffer (cmd : CommandPayload) (ack_flg : Nat)
    (point_tag : Nat) : List Nat :=
  appendPointTagForRouting (assembleUsbFrameFromCommand cmd ack_flg) point_tag

/-- control-catalogue: static assembleCommand (always uses ack_flg 0x01). -/
def assembleCommand (commandMode : Nat) (ordered : List Int)
    (point_tag : Nat) : List Nat :=
  assembleRoutedBuffer ⟨commandMode, ordered⟩ 0x01 point_tag

/-- The ordered int8 staging list built inside buildWheelDistance:
mode 0x11, action, speed, distance low byte, distance high byte. -/
def wheelDistanceOrdered (action speed distance : Nat) : List Int :=
  [toInt8 0x11, toInt8 action, toInt8 speed, toInt8 (distance % 256),
   toInt8 ((distance / 2 ^ 8) % 256)]

/-- control-catalogue: buildWheelDistance (commandMode 0x01, tag 0x02). -/
def buildWheelDistance (action speed distance : Nat) : List Nat :=
  assembleCommand 0x01 (wheelDistanceOrdered action speed distance) 0x02

/-- The ordered int8 staging list built inside buildArmAbsoluteAngle:
mode 0x03, part, speed, hardcoded direction 0x02, angle low byte,
angle high byte. -/
def armAbsoluteOrdered (part speed angle : Nat) : List Int :=
  [toInt8 0x03, toInt8 part, toInt8 speed, toInt8 0x02,
   toInt8 (angle % 256), toInt8 ((angle / 2 ^ 8) % 256)]

/-- control-catalogue: buildArmAbsoluteAngle (commandMode 0x03, tag 0x02). -/
def buildArmAbsoluteAngle (part speed angle : Nat) : List Nat :=
  assembleCommand 0x03 (armAbsoluteOrdered part speed angle) 0x02

/-! ## Transport manager (usb-send.cpp, class SanbotUsbManager) -/

/-- usb-send: struct EndpointSet. hasHandle models handle != nullptr. -/
structure EndpointSet where
  hasHandle : Bool
  outEp : Nat
  inEp : Nat
  iface : Int
  failCount : Nat
deriving DecidableEq

/-- The state of an EndpointSet at construction. -/
def initialEndpoint : EndpointSet := ⟨false, 0, 0, -1, 0⟩

/-- usb-send: closeDevice. Releases the interface and handle (external
libusb calls) and unconditionally resets every field, including the
consecutive-failure counter. -/
def closeDevice (_dev : EndpointSet) : EndpointSet := ⟨false, 0, 0, -1, 0⟩

/-- What the libusb enumeration walk inside openDevice finds: the bulk-OUT
endpoint address, the (possibly absent, then 0) bulk-IN address, and the
claimed interface number. -/
structure ResolvedEndpoint where
  outEp : Nat
  inEp : Nat
  iface : Int
deriving DecidableEq

/-- Outcome of the external libusb calls performed during one
sendBufferTo call: the result of device resolution (none when no matching
device with a claimable bulk interface is attached) and the result pair of
libusb_bulk_transfer. -/
structure UsbEnv where
  resolution : Option ResolvedEndpoint
  transferResult : Int
  transferred : Int
deriving DecidableEq

/-- usb-send: openDevice. Starts with closeDevice, then enumerates devices
(abstracted by env.resolution); on success records the endpoint addresses
and interface and zeroes failCount; the loop only accepts an interface
whose bulk-OUT address is nonzero. -/
def openDevice (env : UsbEnv) (dev : EndpointSet) : EndpointSet :=
  let base := closeDevice dev
  match env.resolution with
  | none => base
  | some re => if re.outEp = 0 then base else ⟨true, re.outEp, re.inEp, re.iface, 0⟩

/-- Observable actions of one sendBufferTo call. -/
inductive UsbEvent where
  | openAttempt
  | reopenCycle
  | bulkTransfer (ok : Bool)
deriving DecidableEq

/-- usb-send: sendBufferTo, returning the updated endpoint state and the
list of observable actions (device-open attempt on entry, bulk transfer,
threshold-triggered close-and-reopen cycle). -/
def sendBufferTo (env : UsbEnv) (dev : EndpointSet) (buf : List Nat) :
    EndpointSet × List UsbEvent :=
  if buf = [] then (dev, [])
  else
    let dev1 := if dev.hasHandle = false ∨ dev.outEp = 0 then openDevice env dev else dev
    let ev1 : List UsbEvent :=
      if dev.hasHandle = false ∨ dev.outEp = 0 then [UsbEvent.openAttempt] else []
    if dev1.hasHandle = false ∨ dev1.outEp = 0 then
      let dev2 : EndpointSet :=
        ⟨dev1.hasHandle, dev1.outEp, dev1.inEp, dev1.iface, dev1.failCount + 1⟩
      if dev2.failCount % 10 = 0 then
        (openDevice env (closeDevice dev2), ev1 ++ [UsbEvent.reopenCycle])
      else
        (dev2, ev1)
    else
      if env.transferResult < 0 ∨ env.transferred ≤ 0 then
        let dev2 : EndpointSet :=
          ⟨dev1.hasHandle, dev1.outEp, dev1.inEp, dev1.iface, dev1.failCount + 1⟩
        if dev2.failCount % 10 = 0 then
          (openDevice env (closeDevice dev2),
           ev1 ++ [UsbEvent.bulkTransfer false, UsbEvent.reopenCycle])
        else
          (dev2, ev1 ++ [UsbEvent.bulkTransfer false])
      else
        (⟨dev1.hasHandle, dev1.outEp, dev1.inEp, dev1.iface, 0⟩,
         ev1 ++ [UsbEvent.bulkTransfer true])

/-- Which logical endpoint an event happened on. -/
inductive Target where
  | headT
  | bottomT
deriving DecidableEq

/-- The two EndpointSet members of SanbotUsbManager. -/
structure ManagerState where
  head : EndpointSet
  bottom : EndpointSet
deriving DecidableEq

/-- Tag a list of endpoint events with the endpoint they happened on. -/
def tagEvents (t : Target) (evs : List UsbEvent) : List (Target × UsbEvent) :=
  evs.map (fun e => (t, e))

/-- usb-send: handlePointMessage. The last byte is the routing tag, the
rest is the frame; tag 0x01 goes to head, 0x02 to bottom, 0x03 to both
(head then bottom); anything else is dropped. -/
def handlePointMessage (envH envB : UsbEnv) (st : ManagerState)
    (buffers : List Nat) : ManagerState × List (Target × UsbEvent) :=
  if buffers.length < 2 then (st, [])
  else
    let tag := buffers.getLast?.getD 0
    let temp := buffers.dropLast
    if tag = 0x01 then
      let r := sendBufferTo envH st.head temp
      (⟨r.1, st.bottom⟩, tagEvents Target.headT r.2)
    else if tag = 0x02 then
      let r := sendBufferTo envB st.bottom temp
      (⟨st.head, r.1⟩, tagEvents Target.bottomT r.2)
    else if tag = 0x03 then
      let rh := sendBufferTo envH st.head temp
      let rb := sendBufferTo envB st.bottom temp
      (⟨rh.1, rb.1⟩, tagEvents Target.headT rh.2 ++ tagEvents Target.bottomT rb.2)
    else
      (st, [])

/-- True on bulk-transfer events. -/
def isBulk : UsbEvent → Bool
  | UsbEvent.bulkTransfer _ => true
  | _ => false

/-- True on close-and-reopen cycle events. -/
def isReopen : UsbEvent → Bool
  | UsbEvent.reopenCycle => true
  | _ => false

/-- Number of close-and-reopen cycles in an event list. -/
def countReopens (evs : List UsbEvent) : Nat := (evs.filter isReopen).length

/-- Number of bulk transfers attempted on one endpoint in a tagged
event list. -/
def bulkCount (t : Target) (evs : List (Target × UsbEvent)) : Nat :=
  (evs.filter (fun p => decide (p.1 = t) && isBulk p.2)).length

/-! ## Send queue (usb-send.cpp, enqueueMessage / sendLoop) -/

/-- usb-send: WHAT_SEND_TO_HEAD. -/
def WHAT_SEND_TO_HEAD : Int := 0x01

/-- usb-send: WHAT_SEND_TO_BOTTOM. -/
def WHAT_SEND_TO_BOTTOM : Int := 0x02

/-- usb-send: WHAT_SEND_TO_POINT. -/
def WHAT_SEND_TO_POINT : Int := 0x04

/-- usb-send: struct Message. -/
structure Message where
  what : Int
  data : List Nat
deriving DecidableEq

/-- usb-send: enqueueMessage pushes at the back of the std::queue. -/
def enqueueMessage (q : List Message) (m : Message) : List Message :=
  q ++ [m]

/-- usb-send: sendToHead. -/
def sendToHead (q : List Message) (frame : List Nat) : List Message :=
  enqueueMessage q ⟨WHAT_SEND_TO_HEAD, frame⟩

/-- usb-send: sendToBottom. -/
def sendToBottom (q : List Message) (frame : List Nat) : List Message :=
  enqueueMessage q ⟨WHAT_SEND_TO_BOTTOM, frame⟩

/-- usb-send: sendToPoint. -/
def sendToPoint (q : List Message) (routedFrameWithTag : List Nat) :
    List Message :=
  enqueueMessage q ⟨WHAT_SEND_TO_POINT, routedFrameWithTag⟩

/-- One dequeue step of sendLoop: front element and remaining queue. -/
def dequeueFront : List Message → Option (Message × List Message)
  | [] => none
  | m :: rest => some (m, rest)

/-- The order in which the single worker of sendLoop processes the queued
messages, popping the front one at a time until the queue is empty. -/
def drain : List Message → List Message
  | [] => []
  | m :: rest => m :: drain rest

/-- drain is exactly the iteration of dequeueFront. -/
theorem drain_dequeueFront (q : List Message) :
    drain q = match dequeueFront q with
              | none => []
              | some p => p.1 :: drain p.2 := by
  cases q <;> rfl

/-! ## Helper lemmas -/

/-- Reducing a uint32 value modulo 256 ignores the uint32 truncation. -/
theorem mod32_mod256 (x : Nat) : x % 4294967296 % 256 = x % 256 :=
  Nat.mod_mod_of_dvd x (by norm_num)

/-- The wire frame, spelled out as the explicit field concatenation. -/
theorem buildUsbFrame_eq (ack : Nat) (datas : List Nat) :
    buildUsbFrame ⟨ack⟩ datas =
      [0xA4, 0x03, 0x00, 0x00]
        ++ toBytes32BE ((datas.length + 6) % 2 ^ 32)
        ++ [ack, 0, 0, 0, 0, 0, 0, 0]
        ++ [0xFF, 0xA5, ack]
        ++ toBytes16BE ((datas.length + 1) % 2 ^ 16)
        ++ datas
        ++ [(0xFF + 0xA5 + ack + (datas.length + 1) % 2 ^ 16 + datas.sum)
              % 256] := by
  simp [buildUsbFrame, computeUsbFieldsAndChecksum, toBytes16BE, byteHigh,
    byteLow, FRAME_TYPE, FRAME_SUBTYPE, FRAME_HEAD, UNUSE, mod32_mod256]

/-- Filtering with a predicate that is false at some list member strictly
shrinks the list. -/
theorem length_filter_lt_of_mem {α : Type} (p : α → Bool) (l : List α)
    (a : α) (ha : a ∈ l) (hpa : p a = false) :
    (l.filter p).length < l.length := by
  induction l with
  | nil => cases ha
  | cons b t ih =>
    rcases List.mem_cons.mp ha with rfl | hmem
    · rw [List.filter_cons, hpa]
      exact Nat.lt_succ_of_le (List.length_filter_le p t)
    · rw [List.filter_cons]
      cases hb : p b
      · exact Nat.lt_succ_of_lt (ih hmem)
      · simpa using Nat.succ_lt_succ (ih hmem)

/-! ## Claim theorems -/

/-- C1: for every CommandPayload and ack_flg, the assembled wire frame is
exactly type (2B BE, 0xA403), subtype (2B BE, 0x0000), content_len (4B BE),
ack_flg, 7 zero bytes, frame_head (2B BE, 0xFFA5), ack_flg again, mmnn
(2B BE), the filtered datas, and the checksum byte; its length is
21 + len(datas) + 1, and the routing tag is only appended afterwards, so
the frame is independent of it. -/
theorem C1_frame_layout (cmd : CommandPayload) (ack : Nat) :
    assembleUsbFrameFromCommand cmd ack =
      [0xA4, 0x03, 0x00, 0x00]
        ++ toBytes32BE (((buildDatas cmd).length + 6) % 2 ^ 32)
        ++ [ack, 0, 0, 0, 0, 0, 0, 0]
        ++ [0xFF, 0xA5, ack]
        ++ toBytes16BE (((buildDatas cmd).length + 1) % 2 ^ 16)
        ++ buildDatas cmd
        ++ [(0xFF + 0xA5 + ack + ((buildDatas cmd).length + 1) % 2 ^ 16
              + (buildDatas cmd).sum) % 256]
    ∧ (assembleUsbFrameFromCommand cmd ack).length
        = 21 + (buildDatas cmd).length + 1
    ∧ ∀ tag, assembleRoutedBuffer cmd ack tag
        = assembleUsbFrameFromCommand cmd ack ++ [tag] := by
  refine ⟨buildUsbFrame_eq ack (buildDatas cmd), ?_, fun tag => rfl⟩
  rw [assembleUsbFrameFromCommand, buildUsbFrame_eq]
  simp [toBytes32BE, toBytes16BE, byteHigh, byteLow]
  omega

/-- C2: for every datas sequence and ack_flg, the checksum byte (the last
byte of the frame) is the low 8 bits of the plain integer sum of the high
byte of frame_head (0xFF), the low byte of frame_head (0xA5), ack_flg, the
full 16-bit value of mmnn added whole, and every byte of datas. -/
theorem C2_checksum (ack : Nat) (datas : List Nat) :
    (computeUsbFieldsAndChecksum ⟨ack⟩ datas).checkSum =
      (0xFF + 0xA5 + ack + (datas.length + 1) % 2 ^ 16 + datas.sum) % 256
    ∧ (buildUsbFrame ⟨ack⟩ datas).getLast? =
      some ((0xFF + 0xA5 + ack + (datas.length + 1) % 2 ^ 16 + datas.sum)
              % 256) := by
  constructor
  · simp [computeUsbFieldsAndChecksum, byteHigh, byteLow, FRAME_HEAD,
      mod32_mod256]
  · rw [buildUsbFrame_eq]
    simp [List.getLast?_append, List.getLast?_cons, List.getLastD_concat]

/-- C5: the concrete scenario wheel-distance forward 50 1000: staged
orderedBytes [0x11, 0x01, 0x32, 0xE8, 0x03] (distance 1000 = 0x03E8 split
low byte 0xE8 then high byte 0x03), commandMode 0x01, filtered datas
[0x01, 0x11, 0x01, 0x32, 0xE8, 0x03] of length 6, content_len 12, mmnn 7,
and routing tag 0x02 as the final byte of the returned buffer. -/
theorem C5_wheel_distance_scenario :
    wheelDistanceOrdered 0x01 50 1000 =
      [toInt8 0x11, toInt8 0x01, toInt8 0x32, toInt8 0xE8, toInt8 0x03]
    ∧ (1000 : Nat) % 256 = 0xE8 ∧ (1000 : Nat) / 2 ^ 8 % 256 = 0x03
    ∧ buildDatas ⟨0x01, wheelDistanceOrdered 0x01 50 1000⟩ =
        [0x01, 0x11, 0x01, 0x32, 0xE8, 0x03]
    ∧ (buildDatas ⟨0x01, wheelDistanceOrdered 0x01 50 1000⟩).length = 6
    ∧ (computeUsbFieldsAndChecksum ⟨0x01⟩
        (buildDatas ⟨0x01, wheelDistanceOrdered 0x01 50 1000⟩)).content_len
        = 12
    ∧ (computeUsbFieldsAndChecksum ⟨0x01⟩
        (buildDatas ⟨0x01, wheelDistanceOrdered 0x01 50 1000⟩)).mmnn = 7
    ∧ (buildWheelDistance 0x01 50 1000).getLast? = some 0x02 := by
  decide

/-- C7: for every part, speed and 16-bit angle, buildArmAbsoluteAngle
routes commandMode 0x03 with ack_flg 0x01 and tag 0x02 (the final byte of
the buffer), staging sub-mode 0x03, part, speed, the hardcoded direction
byte 0x02 after part/speed, then the angle low byte followed by its high
byte (which reassemble to the angle). -/
theorem C7_arm_absolute (part speed angle : Nat) (_hp : part < 256)
    (_hs : speed < 256) (ha : angle < 65536) :
    armAbsoluteOrdered part speed angle =
      [toInt8 0x03, toInt8 part, toInt8 speed, toInt8 0x02,
       toInt8 (angle % 256), toInt8 (angle / 2 ^ 8 % 256)]
    ∧ buildArmAbsoluteAngle part speed angle =
        assembleRoutedBuffer ⟨0x03, armAbsoluteOrdered part speed angle⟩
          0x01 0x02
    ∧ angle % 256 + 256 * (angle / 2 ^ 8 % 256) = angle
    ∧ (buildArmAbsoluteAngle part speed angle).getLast? = some 0x02 := by
  refine ⟨rfl, rfl, by omega, ?_⟩
  rw [buildArmAbsoluteAngle, assembleCommand, assembleRoutedBuffer,
    appendPointTagForRouting]
  simp [List.getLast?_concat]

/-- C7 witness at part 5, speed 60, angle 700. -/
theorem C7_arm_absolute_witness :
    (buildArmAbsoluteAngle 5 60 700).getLast? = some 0x02 :=
  (C7_arm_absolute 5 60 700 (by norm_num) (by norm_num) (by norm_num)).2.2.2

/-- C8: the sentinel-removal step of the payload filter is idempotent: on
any signed-byte sequence with no -1 element it is the identity, so
re-filtering an already-filtered sequence yields the same sequence. -/
theorem C8_filter_idempotent (l : List Int) (h : ∀ x ∈ l, x ≠ -1) :
    removeSentinels (removeSentinels l) = removeSentinels l
    ∧ removeSentinels l = l := by
  have h2 : removeSentinels l = l :=
    List.filter_eq_self.mpr (fun a ha => by simp [h a ha])
  exact ⟨by rw [h2, h2], h2⟩

/-- C8 witness on a sentinel-free sequence. -/
theorem C8_filter_idempotent_witness :
    removeSentinels (removeSentinels [0, 5, 127]) =
      removeSentinels [0, 5, 127] :=
  (C8_filter_idempotent [0, 5, 127] (by decide)).1

/-- C9: a staged field byte of value 0xFF becomes the signed sentinel -1
(for example speed 255 in buildWheelDistance), and a payload whose
orderedBytes contains the sentinel yields a strictly shorter datas, and a
strictly smaller content_len and mmnn, than the unfiltered element count
(1 + len(orderedBytes)) would give. -/
theorem C9_sentinel_shrinks (cmd : CommandPayload) (ack : Nat)
    (hmem : (-1 : Int) ∈ cmd.orderedBytes)
    (hlen : cmd.orderedBytes.length + 7 ≤ 2 ^ 16) :
    toInt8 0xFF = -1
    ∧ (∀ action distance : Nat,
        (-1 : Int) ∈ wheelDistanceOrdered action 255 distance)
    ∧ (buildDatas cmd).length < 1 + cmd.orderedBytes.length
    ∧ (computeUsbFieldsAndChecksum ⟨ack⟩ (buildDatas cmd)).content_len
        < 1 + cmd.orderedBytes.length + 6
    ∧ (computeUsbFieldsAndChecksum ⟨ack⟩ (buildDatas cmd)).mmnn
        < 1 + cmd.orderedBytes.length + 1 := by
  have hff : toInt8 0xFF = -1 := by decide
  have hshort : (buildDatas cmd).length < 1 + cmd.orderedBytes.length := by
    rw [buildDatas, List.length_map]
    have h := length_filter_lt_of_mem (fun sb => decide (sb ≠ -1))
      (toInt8 cmd.commandMode :: cmd.orderedBytes) (-1)
      (List.mem_cons_of_mem _ hmem) (by simp)
    simp only [removeSentinels, List.length_cons] at h ⊢
    omega
  refine ⟨hff, ?_, hshort, ?_, ?_⟩
  · intro action distance
    rw [wheelDistanceOrdered]
    rw [hff]
    simp
  · rw [computeUsbFieldsAndChecksum]
    have h32 : (2 : Nat) ^ 32 = 4294967296 := by norm_num
    have h16 : (2 : Nat) ^ 16 = 65536 := by norm_num
    simp only [h32]
    rw [h16] at hlen
    omega
  · rw [computeUsbFieldsAndChecksum]
    have h16 : (2 : Nat) ^ 16 = 65536 := by norm_num
    simp only [h16]
    rw [h16] at hlen
    omega

/-- C9 witness: a payload whose orderedBytes holds the sentinel. -/
theorem C9_sentinel_shrinks_witness :
    (buildDatas ⟨1, [17, -1, 50]⟩).length
      < 1 + [(17 : Int), -1, 50].length :=
  (C9_sentinel_shrinks ⟨1, [17, -1, 50]⟩ 1 (by decide) (by norm_num)).2.2.1

/-- On an open endpoint with a nonempty buffer, sendBufferTo performs
exactly one bulk transfer. -/
theorem sendBufferTo_open (env : UsbEnv) (dev : EndpointSet)
    (buf : List Nat) (h : dev.hasHandle = true) (h2 : dev.outEp ≠ 0)
    (hb : buf ≠ []) :
    ((sendBufferTo env dev buf).2.filter isBulk).length = 1 := by
  rcases Decidable.em (env.transferResult < 0 ∨ env.transferred ≤ 0) with hf | hok
  · rcases Decidable.em ((dev.failCount + 1) % 10 = 0) with ht | ht <;>
      simp [sendBufferTo, hb, h, h2, hf, ht, isBulk]
  · simp [sendBufferTo, hb, h, h2, hok, isBulk]

/-- Counting per-endpoint bulk transfers in a singly-tagged event list. -/
theorem bulkCount_tagEvents (t t2 : Target) (evs : List UsbEvent) :
    bulkCount t (tagEvents t2 evs) =
      if t2 = t then (evs.filter isBulk).length else 0 := by
  rw [bulkCount, tagEvents, List.filter_map, List.length_map]
  rcases Decidable.em (t2 = t) with he | he
  · subst he
    rw [if_pos rfl]
    have hfun : ((fun p : Target × UsbEvent => decide (p.1 = t2) && isBulk p.2)
        ∘ fun e => (t2, e)) = isBulk := by
      funext e
      simp [Function.comp]
    rw [hfun]
  · rw [if_neg he]
    have hfun : ((fun p : Target × UsbEvent => decide (p.1 = t) && isBulk p.2)
        ∘ fun e => (t2, e)) = fun _ => false := by
      funext e
      simp [Function.comp, he]
    rw [hfun]
    simp

/-- bulkCount distributes over event-list concatenation. -/
theorem bulkCount_append (t : Target) (l1 l2 : List (Target × UsbEvent)) :
    bulkCount t (l1 ++ l2) = bulkCount t l1 + bulkCount t l2 := by
  simp [bulkCount, List.filter_append]

/-- C3 counterexample: from the freshly constructed endpoint, two
consecutive sends whose device resolution fails leave the consecutive
failure counter at 1, not 2: openDevice starts with closeDevice, which
zeroes the counter before each increment, so failed resolutions do not
accumulate towards the 10-failure threshold as the claim states. -/
theorem C3_counterexample_resolution_counter :
    (sendBufferTo ⟨none, 0, 0⟩
        (sendBufferTo ⟨none, 0, 0⟩ initialEndpoint [1]).1 [1]).1.failCount = 1
    ∧ ¬ (sendBufferTo ⟨none, 0, 0⟩
        (sendBufferTo ⟨none, 0, 0⟩ initialEndpoint [1]).1 [1]).1.failCount
          = 2 := by
  decide

/-- C3 amended: on an open endpoint a failed transfer increments the
counter and, at every 10th consecutive failure, triggers exactly one
close-and-reopen cycle; a successful transfer resets the counter to zero.
A failed device resolution, however, leaves the counter at exactly 1,
because the openDevice attempt at the start of the call zeroes it (via its
internal closeDevice) before the increment, so consecutive resolution
failures never accumulate to the threshold. -/
theorem C3_failure_policy (env : UsbEnv) (dev : EndpointSet)
    (buf : List Nat) (hb : buf ≠ []) :
    (dev.hasHandle = true → dev.outEp ≠ 0 →
      ¬(env.transferResult < 0 ∨ env.transferred ≤ 0) →
      (sendBufferTo env dev buf).1.failCount = 0)
    ∧ (dev.hasHandle = true → dev.outEp ≠ 0 →
      (env.transferResult < 0 ∨ env.transferred ≤ 0) →
      (dev.failCount + 1) % 10 ≠ 0 →
      (sendBufferTo env dev buf).1.failCount = dev.failCount + 1
      ∧ countReopens (sendBufferTo env dev buf).2 = 0)
    ∧ (dev.hasHandle = true → dev.outEp ≠ 0 →
      (env.transferResult < 0 ∨ env.transferred ≤ 0) →
      (dev.failCount + 1) % 10 = 0 →
      countReopens (sendBufferTo env dev buf).2 = 1
      ∧ (sendBufferTo env dev buf).1 = openDevice env
          (closeDevice ⟨dev.hasHandle, dev.outEp, dev.inEp, dev.iface,
            dev.failCount + 1⟩))
    ∧ ((dev.hasHandle = false ∨ dev.outEp = 0) → env.resolution = none →
      (sendBufferTo env dev buf).1.failCount = 1) := by
  refine ⟨?_, ?_, ?_, ?_⟩
  · intro h h2 hok
    simp [sendBufferTo, hb, h, h2, hok]
  · intro h h2 hf ht
    simp [sendBufferTo, hb, h, h2, hf, ht, countReopens, isReopen]
  · intro h h2 hf ht
    simp [sendBufferTo, hb, h, h2, hf, ht, countReopens, isReopen]
  · intro hc hres
    simp [sendBufferTo, hb, hc, hres, openDevice, closeDevice]

/-- C3 amended witness: a successful transfer on an open endpoint resets
the counter to 0. -/
theorem C3_failure_policy_witness :
    (sendBufferTo ⟨some ⟨2, 3, 0⟩, 0, 5⟩ ⟨true, 2, 3, 0, 4⟩ [9]).1.failCount
      = 0 :=
  (C3_failure_policy ⟨some ⟨2, 3, 0⟩, 0, 5⟩ ⟨true, 2, 3, 0, 4⟩ [9]
    (by decide)).1 rfl (by decide) (by decide)

/-- C4: in handlePointMessage the last byte is the routing tag and the
rest of the buffer is what is sent: tag 0x01 sends to the head endpoint
only (one bulk transfer there, none on bottom, bottom state untouched),
0x02 to the bottom only, 0x03 to both, each endpoint updated by its own
independent sendBufferTo; any other tag changes nothing and attempts
nothing. -/
theorem C4_routing (envH envB : UsbEnv) (st : ManagerState)
    (buffers : List Nat) (hlen : 2 ≤ buffers.length)
    (hH1 : st.head.hasHandle = true) (hH2 : st.head.outEp ≠ 0)
    (hB1 : st.bottom.hasHandle = true) (hB2 : st.bottom.outEp ≠ 0) :
    (buffers.getLast?.getD 0 = 0x01 →
      (handlePointMessage envH envB st buffers).1 =
        ⟨(sendBufferTo envH st.head buffers.dropLast).1, st.bottom⟩
      ∧ bulkCount Target.headT (handlePointMessage envH envB st buffers).2 = 1
      ∧ bulkCount Target.bottomT
          (handlePointMessage envH envB st buffers).2 = 0)
    ∧ (buffers.getLast?.getD 0 = 0x02 →
      (handlePointMessage envH envB st buffers).1 =
        ⟨st.head, (sendBufferTo envB st.bottom buffers.dropLast).1⟩
      ∧ bulkCount Target.headT (handlePointMessage envH envB st buffers).2 = 0
      ∧ bulkCount Target.bottomT
          (handlePointMessage envH envB st buffers).2 = 1)
    ∧ (buffers.getLast?.getD 0 = 0x03 →
      (handlePointMessage envH envB st buffers).1 =
        ⟨(sendBufferTo envH st.head buffers.dropLast).1,
         (sendBufferTo envB st.bottom buffers.dropLast).1⟩
      ∧ bulkCount Target.headT (handlePointMessage envH envB st buffers).2 = 1
      ∧ bulkCount Target.bottomT
          (handlePointMessage envH envB st buffers).2 = 1)
    ∧ (buffers.getLast?.getD 0 ≠ 0x01 → buffers.getLast?.getD 0 ≠ 0x02 →
      buffers.getLast?.getD 0 ≠ 0x03 →
      handlePointMessage envH envB st buffers = (st, [])) := by
  have hnlt : ¬ buffers.length < 2 := by omega
  have hne : buffers.dropLast ≠ [] := by
    intro hcon
    have hlc := congrArg List.length hcon
    rw [List.length_dropLast] at hlc
    simp at hlc
    omega
  have hopenH := sendBufferTo_open envH st.head buffers.dropLast hH1 hH2 hne
  have hopenB := sendBufferTo_open envB st.bottom buffers.dropLast hB1 hB2 hne
  refine ⟨?_, ?_, ?_, ?_⟩
  · intro htag
    simp [handlePointMessage, hnlt, htag, bulkCount_tagEvents, hopenH]
  · intro htag
    simp [handlePointMessage, hnlt, htag, bulkCount_tagEvents, hopenB]
  · intro htag
    simp [handlePointMessage, hnlt, htag, bulkCount_tagEvents,
      bulkCount_append, hopenH, hopenB]
  · intro h1 h2 h3
    simp [handlePointMessage, hnlt, h1, h2, h3]

/-- C4 witness: a malformed tag is silently dropped. -/
theorem C4_routing_witness :
    handlePointMessage ⟨none, 0, 1⟩ ⟨none, 0, 1⟩
        ⟨⟨true, 2, 3, 0, 0⟩, ⟨true, 2, 3, 0, 0⟩⟩ [7, 9] =
      (⟨⟨true, 2, 3, 0, 0⟩, ⟨true, 2, 3, 0, 0⟩⟩, []) :=
  (C4_routing ⟨none, 0, 1⟩ ⟨none, 0, 1⟩
      ⟨⟨true, 2, 3, 0, 0⟩, ⟨true, 2, 3, 0, 0⟩⟩ [7, 9]
      (by decide) rfl (by decide) rfl (by decide)).2.2.2
    (by decide) (by decide) (by decide)

/-- drain is the identity: the worker pops messages exactly in queue
order. -/
theorem drain_eq (q : List Message) : drain q = q := by
  induction q with
  | nil => rfl
  | cons m rest ih => rw [drain, ih]

/-- Folding enqueueMessage appends the messages in issue order. -/
theorem foldl_enqueue (q ms : List Message) :
    ms.foldl enqueueMessage q = q ++ ms := by
  induction ms generalizing q with
  | nil => simp
  | cons m rest ih => simp [List.foldl_cons, enqueueMessage, ih]

/-- C6: messages pushed by the send operations reach the single worker in
strict FIFO queue-insertion order: enqueuing any sequence after any
existing queue makes the worker process the old queue then the new
messages in issue order; in particular three sequential sends via
sendToHead, sendToBottom and sendToPoint are processed in that order. -/
theorem C6_fifo_order (q ms : List Message) (f1 f2 f3 : List Nat) :
    drain (ms.foldl enqueueMessage q) = drain q ++ ms
    ∧ drain q = q
    ∧ drain (sendToPoint (sendToBottom (sendToHead [] f1) f2) f3) =
      [⟨WHAT_SEND_TO_HEAD, f1⟩, ⟨WHAT_SEND_TO_BOTTOM, f2⟩,
       ⟨WHAT_SEND_TO_POINT, f3⟩] := by
  refine ⟨?_, drain_eq q, ?_⟩
  · rw [foldl_enqueue, drain_eq, drain_eq]
  · simp [sendToPoint, sendToBottom, sendToHead, enqueueMessage, drain_eq]

/-- C10: a sendToPoint buffer with fewer than 2 bytes, and an empty
buffer handed to sendBufferTo for head or bottom, are dropped at dequeue
time with no transfer attempt, no device-open attempt and no state
change. -/
theorem C10_short_buffers (envH envB env : UsbEnv) (st : ManagerState)
    (buffers : List Nat) (hlen : buffers.length < 2) (dev : EndpointSet) :
    handlePointMessage envH envB st buffers = (st, [])
    ∧ sendBufferTo env dev [] = (dev, []) := by
  constructor
  · simp [handlePointMessage, hlen]
  · simp [sendBufferTo]

/-- C10 witness at a one-byte point buffer and an empty frame. -/
theorem C10_short_buffers_witness :
    handlePointMessage ⟨none, 0, 0⟩ ⟨none, 0, 0⟩
        ⟨initialEndpoint, initialEndpoint⟩ [5] =
      (⟨initialEndpoint, initialEndpoint⟩, [])
    ∧ sendBufferTo ⟨none, 0, 0⟩ initialEndpoint [] =
      (initialEndpoint, []) :=
  C10_short_buffers ⟨none, 0, 0⟩ ⟨none, 0, 0⟩ ⟨none, 0, 0⟩
    ⟨initialEndpoint, initialEndpoint⟩ [5] (by decide) initialEndpoint

end Sanbot
